import Mathlib

/-!
Verification development for the `fastapi_keycloak` adapter
(`fastapi_keycloak/api.py`).  The definitions below are a shallow
embedding of the functions of that module: remote HTTP interactions are
represented by explicit input data (the response the remote side would
return), exceptions raised by the Python code are represented by
explicit outcome constructors, and Python truthiness conventions are
reproduced where the code relies on them.
-/

namespace FastapiKeycloak

/-! ## Token model and Token Verifier

`jose.jwt.decode` is an external library collaborator.  It is modelled
at the interface the spec describes (signature against a key, expiry
strictly in the future, optional exact audience match).  A `Token` is
the information the library extracts from a bearer string.
-/

/-- Model of a JWT as the `jose` library sees it: whether the bearer
string is structurally well formed, the key its signature verifies
against, its `exp` claim (epoch seconds), its `aud` claim, the role
collection embedded in its claims, the `resource_access` claim
(client name paired with that client's role list), and the remaining
custom claims. -/
structure Token where
  wellFormed : Bool
  signedWith : String
  exp : Int
  aud : List String
  roles : List String
  resource_access : List (String × List String)
  extra : List (String × String)
deriving DecidableEq, Repr

/-- The verification options dictionary built in `_decode_token`. -/
structure DecodeOptions where
  verify_signature : Bool
  verify_aud : Bool
  verify_exp : Bool
deriving DecidableEq, Repr

/-- The three failure kinds of the jose decoder that the module
distinguishes: `ExpiredSignatureError`, `JWTError` (bad signature or
malformed token), `JWTClaimsError` (invalid claims such as a wrong
audience). -/
inductive JoseError
  | expiredSignature
  | jwtError
  | claimsError
deriving DecidableEq, Repr

/-- Whether the supplied audience argument matches an entry of the
token's `aud` claim exactly. -/
def audienceMatches : Option String → List String → Bool
  | some a, auds => decide (a ∈ auds)
  | none, _ => false

/-- Model of `jose.jwt.decode(token, key, options, audience)` (external
library, modelled from the spec's §4.3 contract): checks well
formedness, then the signature against `key` when requested, then that
`exp` is strictly in the future, then the audience when requested.
Decoded claims are the token's own content. -/
def jwt_decode (tok : Token) (key : String) (opts : DecodeOptions)
    (audience : Option String) (now : Int) : Except JoseError Token :=
  if tok.wellFormed = false then .error .jwtError
  else if opts.verify_signature = true ∧ tok.signedWith ≠ key then .error .jwtError
  else if opts.verify_exp = true ∧ ¬ now < tok.exp then .error .expiredSignature
  else if opts.verify_aud = true ∧ audienceMatches audience tok.aud = false then .error .claimsError
  else .ok tok

/-- The part of the `FastAPIKeycloak` instance state the verifier
consults: the cached realm public key. -/
structure KState where
  public_key : String
deriving DecidableEq, Repr

/-- The default options dictionary `_decode_token` builds when its
`options` argument is `None`: always verify signature and expiry,
verify the audience exactly when an audience argument was supplied. -/
def decode_default_options (audience : Option String) : DecodeOptions :=
  { verify_signature := true, verify_aud := audience.isSome, verify_exp := true }

/-- Embedding of `FastAPIKeycloak._decode_token`: decodes against the
cached public key, with the default options when none are given. -/
def _decode_token (st : KState) (token : Token) (options : Option DecodeOptions)
    (audience : Option String) (now : Int) : Except JoseError Token :=
  let opts := options.getD (decode_default_options audience)
  jwt_decode token st.public_key opts audience now

/-- Embedding of `FastAPIKeycloak.token_is_valid`: true iff
`_decode_token` raises none of the three jose failure kinds. -/
def token_is_valid (st : KState) (token : Token) (audience : Option String)
    (now : Int) : Bool :=
  match _decode_token st token none audience now with
  | .ok _ => true
  | .error _ => false

/-! ## Authorization Guard (`get_current_user` / inner `current_user`) -/

/-- Modelled from the spec: `OIDCUser` lives in `fastapi_keycloak/model.py`,
which is not under `src/`.  Per the spec the guard "enforces a
required-role set against the token's embedded roles" and copies
requested extra claims "into the user view's extension bag, defaulting
to an explicit absent marker".  The user view therefore carries the
decoded token's role collection and an extension bag of optional claim
values. -/
structure OIDCUser where
  roles : List String
  extra_fields : List (String × Option String)
deriving DecidableEq, Repr

/-- Modelled from the spec: `OIDCUser.parse_obj(decoded_token)` builds
the user view from the decoded claims; its role collection is the
token's embedded roles, and the extension bag starts empty. -/
def OIDCUser.parse_obj (decoded : Token) : OIDCUser :=
  { roles := decoded.roles, extra_fields := [] }

/-- The result of the request dependency: either the authenticated user
view, an `HTTPException` with status and detail, or a jose error that
propagates out of the dependency uncaught (signature/claims failures
other than expiry are not converted into `HTTPException`s). -/
inductive GuardOutcome
  | ok (user : OIDCUser)
  | httpError (status_code : Nat) (detail : String)
  | joseRaised (e : JoseError)
deriving DecidableEq, Repr

/-- The `for role in required_roles` loop of `current_user`: returns the
first required role (in list order) that is not in the user's roles,
stopping there, or `none` when every required role is present. -/
def roleLoop : List String → List String → Option String
  | [], _ => none
  | r :: rest, userRoles =>
      if r ∈ userRoles then roleLoop rest userRoles else some r

/-- The 403 detail string naming a missing role. -/
def roleRequiredDetail (role : String) : String :=
  "Role \"" ++ role ++ "\" is required to perform this action"

/-- `decoded_token.get(field, None)` on the custom claims. -/
def claimGet (decoded : Token) (field : String) : Option String :=
  decoded.extra.lookup field

/-- The `for field in extra_fields` loop: copies each requested claim
into the extension bag, `none` when the claim is absent. -/
def setExtraFields (u : OIDCUser) (decoded : Token) (fields : List String) : OIDCUser :=
  { u with extra_fields := fields.map (fun f => (f, claimGet decoded f)) }

/-- Embedding of the dependency returned by
`FastAPIKeycloak.get_current_user`: decode with audience fixed to
`"account"`; an expired signature becomes a 401 `HTTPException`; other
decode failures propagate; then the required-role loop (skipped when
the list argument is `None` or empty, matching Python truthiness),
raising a 403 naming the first missing role; then the extra-fields
loop (likewise skipped when falsy). -/
def current_user (st : KState) (required_roles : Option (List String))
    (extra_fields : Option (List String)) (token : Token) (now : Int) : GuardOutcome :=
  match _decode_token st token none (some "account") now with
  | .error .expiredSignature => .httpError 401 "Access token has expired."
  | .error e => .joseRaised e
  | .ok decoded =>
    let user := OIDCUser.parse_obj decoded
    let roleFailure : Option String :=
      match required_roles with
      | none => none
      | some rs => if rs.isEmpty then none else roleLoop rs user.roles
    match roleFailure with
    | some role => .httpError 403 (roleRequiredDetail role)
    | none =>
      match extra_fields with
      | none => .ok user
      | some fs => if fs.isEmpty then .ok user else .ok (setExtraFields user decoded fs)

/-! ## Datetime model (Python `datetime`, external standard library)

`datetime` objects compare lexicographically on their components, and
`datetime.utcnow()` is a naive datetime carrying the current UTC time.
`datetime.fromisoformat` (as in the Python versions this module
targets) accepts `YYYY-MM-DD`, optionally followed by one separator
character and a `HH:MM` or `HH:MM:SS` time; the model covers the
offset-free, whole-second shapes and treats every other input as a
parse failure (`ValueError`). -/

/-- A naive Python `datetime`, seconds precision. -/
structure PyDatetime where
  year : Nat
  month : Nat
  day : Nat
  hour : Nat
  minute : Nat
  second : Nat
deriving DecidableEq, Repr

/-- Strict `<` on naive datetimes: lexicographic on the components. -/
def PyDatetime.before (a b : PyDatetime) : Bool :=
  if a.year ≠ b.year then decide (a.year < b.year)
  else if a.month ≠ b.month then decide (a.month < b.month)
  else if a.day ≠ b.day then decide (a.day < b.day)
  else if a.hour ≠ b.hour then decide (a.hour < b.hour)
  else if a.minute ≠ b.minute then decide (a.minute < b.minute)
  else decide (a.second < b.second)

/-- The numeric value of a nonempty all-digit character list. -/
def natOfDigits (cs : List Char) : Option Nat :=
  if cs ≠ [] ∧ cs.all Char.isDigit then
    some (cs.foldl (fun a c => 10 * a + (c.toNat - 48)) 0)
  else none

/-- Gregorian leap year, as Python's `calendar` defines it. -/
def isLeapYear (y : Nat) : Bool :=
  (y % 4 = 0 ∧ y % 100 ≠ 0) ∨ y % 400 = 0

/-- Number of days of a month, as `datetime` validates it. -/
def daysInMonth (y m : Nat) : Nat :=
  if m = 2 then (if isLeapYear y then 29 else 28)
  else if m = 4 ∨ m = 6 ∨ m = 9 ∨ m = 11 then 30
  else 31

/-- Parses the `YYYY-MM-DD` date part, validating component ranges as
`datetime` does (year at least 1, month 1..12, day within the month). -/
def parseDatePart (cs : List Char) : Option (Nat × Nat × Nat) :=
  match cs with
  | [y1, y2, y3, y4, c1, m1, m2, c2, d1, d2] =>
    if c1 = '-' ∧ c2 = '-' then
      match natOfDigits [y1, y2, y3, y4], natOfDigits [m1, m2], natOfDigits [d1, d2] with
      | some y, some m, some d =>
        if 1 ≤ y ∧ 1 ≤ m ∧ m ≤ 12 ∧ 1 ≤ d ∧ d ≤ daysInMonth y m then some (y, m, d)
        else none
      | _, _, _ => none
    else none
  | _ => none

/-- Parses the `HH:MM` or `HH:MM:SS` time part, validating ranges. -/
def parseTimePart (cs : List Char) : Option (Nat × Nat × Nat) :=
  match cs with
  | [h1, h2, c1, m1, m2] =>
    if c1 = ':' then
      match natOfDigits [h1, h2], natOfDigits [m1, m2] with
      | some h, some m => if h ≤ 23 ∧ m ≤ 59 then some (h, m, 0) else none
      | _, _ => none
    else none
  | [h1, h2, c1, m1, m2, c2, s1, s2] =>
    if c1 = ':' ∧ c2 = ':' then
      match natOfDigits [h1, h2], natOfDigits [m1, m2], natOfDigits [s1, s2] with
      | some h, some m, some s =>
        if h ≤ 23 ∧ m ≤ 59 ∧ s ≤ 59 then some (h, m, s) else none
      | _, _, _ => none
    else none
  | _ => none

/-- Model of `datetime.fromisoformat` (external standard library) on the
shapes described above: the date part is the first ten characters, an
arbitrary single separator character may follow, then the time part.
`none` models a `ValueError`. -/
def fromisoformat (s : String) : Option PyDatetime :=
  let cs := s.toList
  match parseDatePart (cs.take 10) with
  | none => none
  | some (y, m, d) =>
    match cs.drop 10 with
    | [] => some ⟨y, m, d, 0, 0, 0⟩
    | _ :: timeCs =>
      match parseTimePart timeCs with
      | some (hh, mm, ss) => some ⟨y, m, d, hh, mm, ss⟩
      | none => none

/-- Python `str.rstrip("Z")`: removes every trailing `'Z'`. -/
def rstripZ (s : String) : String :=
  String.mk ((s.toList.reverse.dropWhile (fun c => c = 'Z')).reverse)

/-! ## Login Policy Engine (`user_login` and its helpers)

The remote interactions of one login attempt are represented by the
responses the remote side would return, gathered in a `LoginEnv`.
Raised exceptions (`HTTPException`, the mandatory-action exception
family, `KeycloakError`) become constructors of `LoginOutcome`.  The
second component of `user_login`'s result records whether the
grant-exchange request was performed. -/

/-- A raised `KeycloakError`: remote status and reason. -/
structure KErr where
  status_code : Nat
  reason : String
deriving DecidableEq, Repr

/-- A user attribute value as stored remotely: a string or a sequence
of strings. -/
inductive AttrVal
  | str (s : String)
  | list (l : List String)
deriving DecidableEq, Repr

/-- The fields of the remote user record that `user_login` reads
(`KeycloakUser` itself lives in the not-included `model.py`; these are
the plain data fields `api.py` accesses on it).  `attributes` is `none`
when the record carries no attributes object. -/
structure KeycloakUser where
  id : String
  requiredActions : List String
  attributes : Option (List (String × AttrVal))
deriving DecidableEq, Repr

/-- The response of the login-error events endpoint: its HTTP status
and, per returned event, the value of the event's `error` field
(`none` when the event has no such field). -/
structure EventsResponse where
  status_code : Nat
  events : List (Option String)
deriving DecidableEq, Repr

/-- Embedding of `FastAPIKeycloak.is_user_temporarily_disabled`: a
non-200 events response raises a `KeycloakError`; otherwise the user is
temporarily disabled iff some event's `error` field equals
`"user_temporarily_disabled"`.  (The `result_or_error` decorator on it
passes non-`Response` return values through unchanged, so it does not
alter this behaviour.) -/
def is_user_temporarily_disabled (resp : EventsResponse) : Except KErr Bool :=
  if resp.status_code ≠ 200 then
    .error ⟨resp.status_code, "Error al consultar eventos de Keycloak"⟩
  else
    .ok (decide (some "user_temporarily_disabled" ∈ resp.events))

/-- Embedding of `FastAPIKeycloak.get_active_sessions`: the input is the
session list the remote side returns, or `none` when the request or its
JSON decoding raises, which the code converts into a 400
`KeycloakError`. -/
def get_active_sessions (resp : Option (List Unit)) : Except KErr (List Unit) :=
  match resp with
  | some sessions => .ok sessions
  | none => .error ⟨400, "Error retrieving active sessions"⟩

/-- Model of Python `int(s)` on a string: optional sign followed by
digits. -/
def pyInt (s : String) : Option Int :=
  match s.toList with
  | '-' :: rest => (natOfDigits rest).map (fun n => -(n : Int))
  | '+' :: rest => (natOfDigits rest).map (fun n => (n : Int))
  | cs => (natOfDigits cs).map (fun n => (n : Int))

/-- Embedding of `FastAPIKeycloak.get_max_concurrent_sessions`: the
input is the realm settings' `attributes` mapping (`none` when the
request or its JSON decoding raises).  The cap is
`int(attributes.get("max-sessions", 0))`; any exception becomes a 400
`KeycloakError`. -/
def get_max_concurrent_sessions (realmAttributes : Option (List (String × String))) :
    Except KErr Int :=
  match realmAttributes with
  | none => .error ⟨400, "Error retrieving max concurrent sessions setting"⟩
  | some attrs =>
    match attrs.lookup "max-sessions" with
    | none => .ok 0
    | some v =>
      match pyInt v with
      | some n => .ok n
      | none => .error ⟨400, "Error retrieving max concurrent sessions setting"⟩

/-- `user.attributes and isinstance(user.attributes, dict)` followed by
`.get(key)`: `None` attributes and the falsy empty mapping both yield
no value. -/
def attrsGet (attributes : Option (List (String × AttrVal))) (key : String) :
    Option AttrVal :=
  match attributes with
  | none => none
  | some d => if d.isEmpty then none else d.lookup key

/-- Python truthiness of an optional attribute value: `None`, the empty
string and the empty sequence are falsy. -/
def pyTruthy : Option AttrVal → Bool
  | none => false
  | some (.str s) => decide (s ≠ "")
  | some (.list l) => decide (l ≠ [])

/-- `expiration_date[0] if isinstance(expiration_date, list) else
expiration_date`.  The empty-sequence branch is unreachable behind the
truthiness guard. -/
def firstElement : AttrVal → String
  | .str s => s
  | .list l => l.headD ""

/-- The token fields `user_login` extracts from the grant response body
with `.get` (each `none` when the corresponding key is absent). -/
structure TokenEnvelope where
  access_token : Option String
  refresh_token : Option String
  id_token : Option String
  expires_in : Option Int
  refresh_expires_in : Option Int
deriving DecidableEq, Repr

/-- The grant-exchange response: its status code and, when
`response.json()` succeeds, the gettable token fields of its body
(`none` models a `JSONDecodeError`). -/
structure GrantResponse where
  status_code : Nat
  jsonBody : Option TokenEnvelope
deriving DecidableEq, Repr

/-- The outcome of one `user_login` call: the returned token dictionary,
a raised `HTTPException`, one of the mandatory-action exceptions, or a
raised `KeycloakError`. -/
inductive LoginOutcome
  | success (tokens : TokenEnvelope)
  | httpError (status_code : Nat) (detail : String)
  | updateUserLocale
  | configureTOTP
  | verifyEmail
  | updatePassword
  | updateProfile
  | mandatoryAction (detail : String)
  | keycloakError (status_code : Nat) (reason : String)
deriving DecidableEq, Repr

/-- The generic mandatory-action detail naming the pending action. -/
def mandatoryActionDetail (reason : String) : String :=
  "This user cannot log in until the required action is resolved: " ++ reason ++ "."

/-- The dictionary dispatch of `user_login` on the first pending
required action. -/
def requiredActionException (reason : String) : LoginOutcome :=
  if reason = "update_user_locale" then .updateUserLocale
  else if reason = "CONFIGURE_TOTP" then .configureTOTP
  else if reason = "VERIFY_EMAIL" then .verifyEmail
  else if reason = "UPDATE_PASSWORD" then .updatePassword
  else if reason = "UPDATE_PROFILE" then .updateProfile
  else .mandatoryAction (mandatoryActionDetail reason)

/-- The detail strings of `user_login`'s `HTTPException`s. -/
def lockoutDetail : String :=
  "The user is temporarily disabled due to too many failed login attempts."

/-- Detail of the expired-account 403. -/
def expiredDetail : String :=
  "The account has expired. Please contact the administrator."

/-- Detail of the malformed-expiration-date 400. -/
def invalidExpirationDetail : String :=
  "Invalid account expiration date format."

/-- Detail of the concurrency-limit 403. -/
def concurrencyDetail : String :=
  "Concurrent session limit reached. Please close a session and try again."

/-- The expiration block of `user_login` applied to the fetched
attribute value: skipped when the value is falsy; otherwise the first
element (for a sequence) has its trailing `Z`s stripped and is parsed,
a `ValueError` becoming the 400 configuration error and a parsed date
strictly before `utcnow` the 403 expired error. -/
def expirationOutcome (v : Option AttrVal) (now : PyDatetime) : Option LoginOutcome :=
  match v with
  | none => none
  | some av =>
    if pyTruthy (some av) then
      match fromisoformat (rstripZ (firstElement av)) with
      | none => some (.httpError 400 invalidExpirationDetail)
      | some d =>
        if PyDatetime.before d now then some (.httpError 403 expiredDetail) else none
    else none

/-- The environment of one login attempt: the user record resolved by
the initial `get_user` call, the responses the remote side returns to
the events, sessions and realm-settings reads, the current UTC time,
and the response the token endpoint would return to the grant
exchange. -/
structure LoginEnv where
  user : KeycloakUser
  eventsResponse : EventsResponse
  sessionsResponse : Option (List Unit)
  realmAttributes : Option (List (String × String))
  now : PyDatetime
  grantResponse : GrantResponse
deriving Repr

/-- Embedding of `FastAPIKeycloak.user_login` after the user has been
resolved: lockout check, then expiration check, then concurrency check,
then — only if all pass — the grant exchange, whose result is
post-processed (401 to invalid credentials, 400 with pending required
actions to the mapped mandatory-action exception, anything else parsed
as a token body with a `JSONDecodeError` raising a `KeycloakError`).
The boolean records whether the grant exchange was performed. -/
def user_login (env : LoginEnv) : LoginOutcome × Bool :=
  match is_user_temporarily_disabled env.eventsResponse with
  | .error e => (.keycloakError e.status_code e.reason, false)
  | .ok true => (.httpError 403 lockoutDetail, false)
  | .ok false =>
    match expirationOutcome (attrsGet env.user.attributes "account_expiration") env.now with
    | some o => (o, false)
    | none =>
      match get_active_sessions env.sessionsResponse with
      | .error e => (.keycloakError e.status_code e.reason, false)
      | .ok active_sessions =>
        match get_max_concurrent_sessions env.realmAttributes with
        | .error e => (.keycloakError e.status_code e.reason, false)
        | .ok max_sessions =>
          if 0 < max_sessions ∧ max_sessions ≤ (active_sessions.length : Int) then
            (.httpError 403 concurrencyDetail, false)
          else
            let response := env.grantResponse
            if response.status_code = 401 then
              (.httpError 401 "Invalid credentials.", true)
            else if response.status_code = 400 ∧ env.user.requiredActions ≠ [] then
              (requiredActionException (env.user.requiredActions.headD ""), true)
            else
              match response.jsonBody with
              | some token_data => (.success token_data, true)
              | none =>
                (.keycloakError response.status_code "Failed to parse token response.", true)

/-! ## Admin Credential Manager (`admin_token` / `_get_admin_token`)

The `admin_token` property checks the cached token with
`token_is_valid` and, on failure, calls `_get_admin_token` and then
recursively re-reads itself.  `_get_admin_token` performs the
client-credentials grant and stores the result through the
`admin_token` setter, which decodes it (raising on signature or expiry
failure) and asserts the `realm-management` and `account` resource
accesses.  The recursion is modelled with explicit fuel; the
environment supplies the clock reading and the grant result of each
iteration. -/

/-- The result of one client-credentials grant: a response whose body is
not JSON (text and status), a JSON body without an `access_token`
field, or a granted token. -/
inductive GrantResult
  | notJson (text : String) (status : Nat)
  | noAccessToken
  | token (t : Token)
deriving DecidableEq, Repr

/-- An explicit failure of the admin-token acquisition: a raised
`KeycloakError`, a jose error propagating out of the setter's decode,
or the setter's `AssertionError` about missing admin capabilities. -/
inductive AdminFailure
  | keycloakError (e : KErr)
  | joseRaised (e : JoseError)
  | assertionError
deriving DecidableEq, Repr

/-- Embedding of `FastAPIKeycloak._get_admin_token` together with the
`admin_token` setter it assigns through: grant-response failures raise
`KeycloakError`s; a granted token is decoded against the cached public
key (errors propagate) and must carry truthy `realm-management` and
`account` entries of `resource_access`, else the `AssertionError` is
raised; otherwise the token is stored. -/
def _get_admin_token (st : KState) (now : Int) (grant : GrantResult) :
    Except AdminFailure Token :=
  match grant with
  | .notJson text status => .error (.keycloakError ⟨status, text⟩)
  | .noAccessToken => .error (.keycloakError ⟨403, "The response did not contain an access_token"⟩)
  | .token t =>
    match _decode_token st t none none now with
    | .error e => .error (.joseRaised e)
    | .ok decoded =>
      if (decoded.resource_access.lookup "realm-management").isSome
          ∧ (decoded.resource_access.lookup "account").isSome then
        .ok t
      else
        .error .assertionError

/-- Result of the fuel-indexed `admin_token` accessor. -/
inductive AdminTokenResult
  | token (t : Token)
  | failure (e : AdminFailure)
  | outOfFuel
deriving DecidableEq, Repr

/-- Fuel-indexed embedding of the `admin_token` property: at iteration
`k` (clock reading `times k`) the cached token is checked with
`token_is_valid`; if valid it is returned, otherwise `_get_admin_token`
runs against the `k`-th grant result and the property re-reads itself
on the refreshed cache.  `outOfFuel` marks a recursion that has not
returned within the allotted depth. -/
def admin_token_fuel (st : KState) (times : Nat → Int) (grants : Nat → GrantResult) :
    Token → Nat → Nat → AdminTokenResult
  | _, _, 0 => .outOfFuel
  | cached, k, fuel + 1 =>
    if token_is_valid st cached none (times k) then .token cached
    else
      match _get_admin_token st (times k) (grants k) with
      | .error e => .failure e
      | .ok t => admin_token_fuel st times grants t (k + 1) fuel

/-! ## User lookup query validation (`validate_query` / `get_user`) -/

/-- The module-level allow-list of query fields. -/
def ALLOWED_QUERY_FIELDS : List String := ["email", "username", "firstName", "lastName"]

/-- Python `str.split(sep)` with a one-character separator, keeping
empty pieces, over character lists. -/
def splitOnChar (c : Char) : List Char → List (List Char)
  | [] => [[]]
  | x :: rest =>
    match splitOnChar c rest with
    | [] => [[x]]
    | g :: gs => if x = c then [] :: g :: gs else (x :: g) :: gs

/-- Python `str.partition(sep)` with a one-character separator, over
character lists: the parts before and after the first occurrence (the
whole string and `""` when there is none). -/
def partitionChar (c : Char) : List Char → List Char × List Char
  | [] => ([], [])
  | x :: rest =>
    if x = c then ([], rest)
    else
      let kv := partitionChar c rest
      (x :: kv.1, kv.2)

/-- `pair.partition("=")` on strings, keeping only the key and value
parts the loop uses. -/
def partitionEq (s : String) : String × String :=
  let kv := partitionChar '=' s.toList
  (String.mk kv.1, String.mk kv.2)

/-- `query.split("&")` on strings. -/
def splitAmp (query : String) : List String :=
  (splitOnChar '&' query.toList).map String.mk

/-- The loop body of `validate_query` over the `&`-separated pairs:
raises `ValueError` at the first pair whose key is outside the
allow-list or whose value is empty. -/
def validateQueryPairs : List String → Except String Unit
  | [] => .ok ()
  | p :: rest =>
    let kv := partitionEq p
    if kv.1 ∈ ALLOWED_QUERY_FIELDS ∧ kv.2 ≠ "" then validateQueryPairs rest
    else .error ("Invalid query field or value: " ++ kv.1 ++ "=" ++ kv.2)

/-- Embedding of `FastAPIKeycloak.validate_query`. -/
def validate_query (query : String) : Except String String :=
  match validateQueryPairs (splitAmp query) with
  | .ok _ => .ok query
  | .error m => .error m

/-- What the query branch of `get_user` (called with `user_id=None`)
does before anything else: either the `ValueError` rejection, or the
remote lookup request with the validated query string. -/
inductive GetUserAction
  | remoteLookup (query : String)
  | rejected (msg : String)
deriving DecidableEq, Repr

/-- Embedding of the pre-call portion of `FastAPIKeycloak.get_user`'s
query branch: `validate_query` runs first, and the remote request is
made only when it returns. -/
def get_user_by_query (query : String) : GetUserAction :=
  match validate_query query with
  | .error m => .rejected m
  | .ok q => .remoteLookup q

/-! ## Response classification (`result_or_error`) -/

/-- A small JSON value type for response bodies. -/
inductive Json
  | null
  | bool (b : Bool)
  | num (n : Int)
  | str (s : String)
  | arr (xs : List Json)
  | obj (fields : List (String × Json))

/-- A `requests.Response` as the wrapper inspects it: status code, the
JSON body when `result.json()` succeeds (`none` models a
`JSONDecodeError`), and the decoded text `result.content.decode`. -/
structure PyResponse where
  status_code : Nat
  jsonBody : Option Json
  text : String

/-- The `reason` carried by a raised `KeycloakError`: the parsed JSON
body when parseable, else the decoded text. -/
inductive KeycloakReason
  | jsonReason (j : Json)
  | textReason (s : String)

/-- What the `result_or_error` wrapper does with a `Response`.  The
`parse_obj` calls of the external pydantic response model are
represented by carrying the JSON payload they would receive; a success
branch with a response model and a malformed body propagates the
`JSONDecodeError` uncaught. -/
inductive WrapOutcome
  | value (j : Json)
  | textValue (s : String)
  | modelObject (j : Json)
  | modelList (j : Json)
  | jsonDecodeRaised
  | keycloakError (status_code : Nat) (reason : KeycloakReason)

/-- Embedding of the wrapper body of `result_or_error` on a `Response`
value: statuses in `range(100, 299)` are successful — without a
response model the JSON body is returned, falling back to the decoded
text on a `JSONDecodeError`; with one the body is fed to the model (as
a list when `is_list`).  Any other status raises a `KeycloakError`
carrying the status and the JSON body, falling back to the decoded
text. -/
def result_or_error_wrap (hasModel isList : Bool) (result : PyResponse) : WrapOutcome :=
  if 100 ≤ result.status_code ∧ result.status_code < 299 then
    if hasModel = false then
      match result.jsonBody with
      | some j => .value j
      | none => .textValue result.text
    else
      match result.jsonBody with
      | none => .jsonDecodeRaised
      | some j => if isList then .modelList j else .modelObject j
  else
    match result.jsonBody with
    | some j => .keycloakError result.status_code (.jsonReason j)
    | none => .keycloakError result.status_code (.textReason result.text)

/-! ## Concrete instances used by witnesses and counterexamples -/

/-- An instance state whose cached realm public key is a fixed string. -/
def stEx : KState := ⟨"realm-public-key"⟩

/-- A well-formed token signed with the cached key, unexpired at time 0,
with audience `account` and a single `user` role. -/
def tokEx : Token :=
  { wellFormed := true, signedWith := "realm-public-key", exp := 100,
    aud := ["account"], roles := ["user"], resource_access := [], extra := [] }

/-- A grant response body with all token fields present. -/
def tokenEnvEx : TokenEnvelope :=
  { access_token := some "at", refresh_token := some "rt", id_token := some "it",
    expires_in := some 300, refresh_expires_in := some 1800 }

/-- A user simultaneously temporarily locked out (a
`user_temporarily_disabled` login-error event exists) and past account
expiration (`account_expiration` of 2020-01-01, clock at 2026-10-12). -/
def envC2 : LoginEnv :=
  { user := { id := "u1", requiredActions := [],
              attributes := some [("account_expiration", .str "2020-01-01T00:00:00Z")] },
    eventsResponse := { status_code := 200, events := [some "user_temporarily_disabled"] },
    sessionsResponse := some [],
    realmAttributes := some [],
    now := ⟨2026, 10, 12, 0, 0, 0⟩,
    grantResponse := { status_code := 200, jsonBody := some tokenEnvEx } }

/-- A login attempt whose pre-checks all pass and whose grant exchange
returns status 500 with a JSON body. -/
def envC3 : LoginEnv :=
  { user := { id := "u1", requiredActions := [], attributes := none },
    eventsResponse := { status_code := 200, events := [] },
    sessionsResponse := some [],
    realmAttributes := some [],
    now := ⟨2026, 10, 12, 0, 0, 0⟩,
    grantResponse := { status_code := 500, jsonBody := some tokenEnvEx } }

/-- Like `envC3` but the 500 response body is not JSON. -/
def envC3w : LoginEnv :=
  { envC3 with grantResponse := { status_code := 500, jsonBody := none } }

/-- The spec's "alice" scenario: pending `UPDATE_PASSWORD` required
action and a 400 grant response. -/
def envC4 : LoginEnv :=
  { user := { id := "alice", requiredActions := ["UPDATE_PASSWORD"], attributes := none },
    eventsResponse := { status_code := 200, events := [] },
    sessionsResponse := some [],
    realmAttributes := some [],
    now := ⟨2026, 10, 12, 0, 0, 0⟩,
    grantResponse := { status_code := 400, jsonBody := some tokenEnvEx } }

/-- A user whose `account_expiration` attribute is present but the empty
string; everything else passes and the grant returns 200. -/
def envC5 : LoginEnv :=
  { user := { id := "u1", requiredActions := [],
              attributes := some [("account_expiration", .str "")] },
    eventsResponse := { status_code := 200, events := [] },
    sessionsResponse := some [],
    realmAttributes := some [],
    now := ⟨2026, 10, 12, 0, 0, 0⟩,
    grantResponse := { status_code := 200, jsonBody := some tokenEnvEx } }

/-- The spec's "bob" scenario: `account_expiration` of 2020-01-01 in the
past, no lockout, clock at 2026-10-12. -/
def envC5w : LoginEnv :=
  { user := { id := "bob", requiredActions := [],
              attributes := some [("account_expiration", .str "2020-01-01T00:00:00Z")] },
    eventsResponse := { status_code := 200, events := [] },
    sessionsResponse := some [],
    realmAttributes := some [],
    now := ⟨2026, 10, 12, 0, 0, 0⟩,
    grantResponse := { status_code := 200, jsonBody := some tokenEnvEx } }

/-- A realm capped at 2 concurrent sessions with 2 active sessions. -/
def envC6 : LoginEnv :=
  { user := { id := "u1", requiredActions := [], attributes := none },
    eventsResponse := { status_code := 200, events := [] },
    sessionsResponse := some [(), ()],
    realmAttributes := some [("max-sessions", "2")],
    now := ⟨2026, 10, 12, 0, 0, 0⟩,
    grantResponse := { status_code := 200, jsonBody := some tokenEnvEx } }

/-- The admin token cached or granted at step `k`: signed with the realm
key, carrying both admin capabilities, expiring at epoch second `k`. -/
def c8_tok (k : Nat) : Token :=
  { wellFormed := true, signedWith := "realm-public-key", exp := (k : Int),
    aud := [], roles := [],
    resource_access := [("realm-management", ["manage-users"]), ("account", ["view-profile"])],
    extra := [] }

/-- The clock reads `k` at the `k`-th validity check. -/
def c8_times (k : Nat) : Int := (k : Int)

/-- The remote grant at step `k` returns a token that is valid when the
setter decodes it (it expires at `k + 1`, one second later) but expired
by the time the re-read property checks it. -/
def c8_grants (k : Nat) : GrantResult := .token (c8_tok (k + 1))

/-- A 500 response whose body is not JSON. -/
def pyRespEx : PyResponse := { status_code := 500, jsonBody := none, text := "oops" }

/-! ## Theorems -/

/-- The role loop returns no failure exactly when every required role is
among the user's roles. -/
theorem roleLoop_eq_none_iff (R T : List String) :
    roleLoop R T = none ↔ ∀ r ∈ R, r ∈ T := by
  induction R with
  | nil => simp [roleLoop]
  | cons a as ih =>
    by_cases h : a ∈ T <;> simp [roleLoop, h, ih]

/-- The role loop stops at the first required role missing from the
user's roles. -/
theorem roleLoop_first_missing (pre : List String) (r : String) (post T : List String)
    (hpre : ∀ x ∈ pre, x ∈ T) (hr : r ∉ T) :
    roleLoop (pre ++ r :: post) T = some r := by
  induction pre with
  | nil => simp [roleLoop, hr]
  | cons a as ih =>
    have ha : a ∈ T := hpre a (by simp)
    simp only [List.cons_append, roleLoop, if_pos ha]
    exact ih (fun x hx => hpre x (by simp [hx]))

/-- Reduction of the guard dependency once the decode has succeeded. -/
theorem current_user_of_decode_ok (st : KState) (R : List String) (token : Token) (now : Int)
    (hdec : _decode_token st token none (some "account") now = Except.ok token) :
    current_user st (some R) none token now =
      match (if R.isEmpty then none else roleLoop R token.roles) with
      | some role => .httpError 403 (roleRequiredDetail role)
      | none => .ok (OIDCUser.parse_obj token) := by
  unfold current_user
  rw [hdec]
  rfl

/-- C1: for every required-role list `R` and every decoded token whose
role collection is `T`, the guard dependency succeeds and returns the
user view iff every role of `R` appears in `T`; when a role is missing
it fails with a 403 naming the first role of `R` (in list order) that is
not in `T`, without checking later roles. -/
theorem get_current_user_role_enforcement (st : KState) (R : List String) (token : Token)
    (now : Int)
    (hdec : _decode_token st token none (some "account") now = Except.ok token) :
    (current_user st (some R) none token now = .ok (OIDCUser.parse_obj token) ↔
        ∀ r ∈ R, r ∈ token.roles)
  ∧ (∀ pre r post, R = pre ++ r :: post →
        (∀ x ∈ pre, x ∈ token.roles) → r ∉ token.roles →
        current_user st (some R) none token now = .httpError 403 (roleRequiredDetail r)) := by
  have hred := current_user_of_decode_ok st R token now hdec
  constructor
  · rw [hred]
    rcases hE : R.isEmpty with _ | _
    · rw [if_neg (by simp [hE])]
      rcases h : roleLoop R token.roles with _ | role
      · exact iff_of_true rfl ((roleLoop_eq_none_iff R token.roles).mp h)
      · refine iff_of_false (by simp) ?_
        intro hall
        rw [(roleLoop_eq_none_iff R token.roles).mpr hall] at h
        cases h
    · simp [List.isEmpty_iff.mp hE]
  · intro pre r post hR hpre hr
    rw [hred, hR]
    rw [if_neg (by simp)]
    rw [roleLoop_first_missing pre r post token.roles hpre hr]

/-- Witness for C1: with a required role the token lacks, the guard
fails with the 403 naming it. -/
theorem get_current_user_role_enforcement_witness :
    current_user stEx (some ["admin"]) none tokEx 0 =
      .httpError 403 (roleRequiredDetail "admin") := by
  have h := get_current_user_role_enforcement stEx ["admin"] tokEx 0 (by rfl)
  exact h.2 [] "admin" [] rfl (by simp) (by decide)

/-- C2: `user_login` evaluates its pre-checks in the fixed order
lockout, then expiration, then concurrency, each short-circuiting on
failure, and performs the grant exchange only when all pre-checks pass;
in particular the lockout outcome wins over any expiration state and no
grant call is made on any pre-check failure. -/
theorem user_login_precheck_ordering (env : LoginEnv) :
    (∀ e, is_user_temporarily_disabled env.eventsResponse = .error e →
        user_login env = (.keycloakError e.status_code e.reason, false))
  ∧ (is_user_temporarily_disabled env.eventsResponse = .ok true →
        user_login env = (.httpError 403 lockoutDetail, false))
  ∧ (∀ o, is_user_temporarily_disabled env.eventsResponse = .ok false →
        expirationOutcome (attrsGet env.user.attributes "account_expiration") env.now = some o →
        user_login env = (o, false))
  ∧ (∀ ss m, is_user_temporarily_disabled env.eventsResponse = .ok false →
        expirationOutcome (attrsGet env.user.attributes "account_expiration") env.now = none →
        get_active_sessions env.sessionsResponse = .ok ss →
        get_max_concurrent_sessions env.realmAttributes = .ok m →
        0 < m → m ≤ (ss.length : Int) →
        user_login env = (.httpError 403 concurrencyDetail, false))
  ∧ (∀ ss m, is_user_temporarily_disabled env.eventsResponse = .ok false →
        expirationOutcome (attrsGet env.user.attributes "account_expiration") env.now = none →
        get_active_sessions env.sessionsResponse = .ok ss →
        get_max_concurrent_sessions env.realmAttributes = .ok m →
        ¬ (0 < m ∧ m ≤ (ss.length : Int)) →
        (user_login env).2 = true) := by
  refine ⟨?_, ?_, ?_, ?_, ?_⟩
  · intro e h
    simp [user_login, h]
  · intro h
    simp [user_login, h]
  · intro o h1 h2
    simp [user_login, h1, h2]
  · intro ss m h1 h2 h3 h4 h5 h6
    simp [user_login, h1, h2, h3, h4, h5, h6]
  · intro ss m h1 h2 h3 h4 h5
    simp only [user_login, h1, h2, h3, h4]
    rw [if_neg h5]
    split
    · rfl
    · split
      · rfl
      · split <;> rfl

/-- Witness for C2: a user simultaneously locked out and past account
expiration gets the lockout outcome and no grant call is made. -/
theorem user_login_precheck_ordering_witness :
    user_login envC2 = (.httpError 403 lockoutDetail, false) :=
  (user_login_precheck_ordering envC2).2.1 (by rfl)

/-- Counterexample to C3: a grant response with status 500 (not 2xx,
not 401, not a 400 with pending required actions) whose body parses as
JSON is returned as a successful login, not as an upstream error
outcome. -/
theorem user_login_upstream_error_counterexample :
    envC3.grantResponse.status_code = 500
  ∧ envC3.user.requiredActions = []
  ∧ user_login envC3 = (.success tokenEnvEx, true) :=
  ⟨rfl, rfl, by decide⟩

/-- C3 as amended: for every grant-exchange response whose status is
not 401 and not a 400 with pending required actions, `user_login`
parses the body as JSON and returns the extracted token fields as a
successful login regardless of the status code; only when the body is
not valid JSON does it raise a `KeycloakError`, carrying the remote
status and a fixed parse-failure reason rather than the body. -/
theorem user_login_grant_fallthrough (env : LoginEnv) (ss : List Unit) (m : Int)
    (h1 : is_user_temporarily_disabled env.eventsResponse = .ok false)
    (h2 : expirationOutcome (attrsGet env.user.attributes "account_expiration") env.now = none)
    (h3 : get_active_sessions env.sessionsResponse = .ok ss)
    (h4 : get_max_concurrent_sessions env.realmAttributes = .ok m)
    (h5 : ¬ (0 < m ∧ m ≤ (ss.length : Int)))
    (h6 : env.grantResponse.status_code ≠ 401)
    (h7 : ¬ (env.grantResponse.status_code = 400 ∧ env.user.requiredActions ≠ [])) :
    (∀ t, env.grantResponse.jsonBody = some t → user_login env = (.success t, true))
  ∧ (env.grantResponse.jsonBody = none →
        user_login env =
          (.keycloakError env.grantResponse.status_code "Failed to parse token response.", true)) := by
  constructor
  · intro t ht
    simp only [user_login, h1, h2, h3, h4]
    rw [if_neg h5, if_neg h6, if_neg h7, ht]
  · intro ht
    simp only [user_login, h1, h2, h3, h4]
    rw [if_neg h5, if_neg h6, if_neg h7, ht]

/-- Witness for the amended C3: a 500 response whose body is not JSON
raises the `KeycloakError` with the remote status and the fixed parse
failure reason. -/
theorem user_login_grant_fallthrough_witness :
    user_login envC3w = (.keycloakError 500 "Failed to parse token response.", true) :=
  (user_login_grant_fallthrough envC3w [] 0 rfl rfl rfl rfl
    (by decide) (by decide) (by decide)).2 rfl

/-- C4: a 400 grant response with the user record (fetched at the start
of `user_login`) holding a non-empty `requiredActions` sequence fails
with the outcome mapped from the first pending action:
`update_user_locale`, `CONFIGURE_TOTP`, `VERIFY_EMAIL`,
`UPDATE_PASSWORD` and `UPDATE_PROFILE` map to their dedicated outcomes,
and any other action string maps to the generic mandatory-action
outcome naming that action. -/
theorem user_login_mandatory_action_mapping (env : LoginEnv) (ss : List Unit) (m : Int)
    (a : String) (rest : List String)
    (h1 : is_user_temporarily_disabled env.eventsResponse = .ok false)
    (h2 : expirationOutcome (attrsGet env.user.attributes "account_expiration") env.now = none)
    (h3 : get_active_sessions env.sessionsResponse = .ok ss)
    (h4 : get_max_concurrent_sessions env.realmAttributes = .ok m)
    (h5 : ¬ (0 < m ∧ m ≤ (ss.length : Int)))
    (h6 : env.grantResponse.status_code = 400)
    (h7 : env.user.requiredActions = a :: rest) :
    user_login env = (requiredActionException a, true)
  ∧ requiredActionException "update_user_locale" = .updateUserLocale
  ∧ requiredActionException "CONFIGURE_TOTP" = .configureTOTP
  ∧ requiredActionException "VERIFY_EMAIL" = .verifyEmail
  ∧ requiredActionException "UPDATE_PASSWORD" = .updatePassword
  ∧ requiredActionException "UPDATE_PROFILE" = .updateProfile
  ∧ (a ∉ ["update_user_locale", "CONFIGURE_TOTP", "VERIFY_EMAIL",
            "UPDATE_PASSWORD", "UPDATE_PROFILE"] →
        requiredActionException a = .mandatoryAction (mandatoryActionDetail a)) := by
  refine ⟨?_, rfl, rfl, rfl, rfl, rfl, ?_⟩
  · simp only [user_login, h1, h2, h3, h4]
    rw [if_neg h5, if_neg (by simp [h6]), if_pos (by simp [h6, h7]), h7]
    rfl
  · intro ha
    simp only [List.mem_cons, List.mem_singleton, not_or] at ha
    obtain ⟨n1, n2, n3, n4, n5, _⟩ := ha
    simp [requiredActionException, n1, n2, n3, n4, n5]

/-- Witness for C4: the spec's "alice" scenario — pending
`UPDATE_PASSWORD`, grant returns 400, outcome is the update-password
outcome, not invalid credentials. -/
theorem user_login_mandatory_action_mapping_witness :
    user_login envC4 = (.updatePassword, true) :=
  (user_login_mandatory_action_mapping envC4 [] 0 "UPDATE_PASSWORD" []
    rfl rfl rfl rfl (by decide) rfl rfl).1

/-- Counterexample to C5: a user whose `account_expiration` attribute
is present but is the empty string.  The value does not parse as
ISO-8601, yet login proceeds to a successful grant instead of yielding
the configuration-error outcome the claim requires for a present value
that fails to parse — the code treats the falsy empty value like
absence. -/
theorem account_expiration_empty_value_counterexample :
    attrsGet envC5.user.attributes "account_expiration" = some (AttrVal.str "")
  ∧ fromisoformat (rstripZ "") = none
  ∧ user_login envC5 = (.success tokenEnvEx, true) :=
  ⟨by decide, by decide, by decide⟩

/-- C5 as amended: if the `account_expiration` attribute is absent or
its value is empty (empty string or empty sequence — falsy values the
code treats like absence), no expiration failure occurs; if present and
non-empty (taken as the string itself, or the first element when it is
a sequence), trailing `Z` characters are stripped and the value parsed
as ISO-8601 interpreted as UTC; a parse failure yields the
configuration-error outcome; a parsed date strictly before the current
UTC time yields the Expired outcome before any grant call is made. -/
theorem user_login_expiration_check (env : LoginEnv) (va : Option AttrVal)
    (h1 : is_user_temporarily_disabled env.eventsResponse = .ok false)
    (hv : attrsGet env.user.attributes "account_expiration" = va) :
    (pyTruthy va = false → expirationOutcome va env.now = none)
  ∧ (∀ av, va = some av → pyTruthy va = true →
        fromisoformat (rstripZ (firstElement av)) = none →
        user_login env = (.httpError 400 invalidExpirationDetail, false))
  ∧ (∀ av d, va = some av → pyTruthy va = true →
        fromisoformat (rstripZ (firstElement av)) = some d →
        PyDatetime.before d env.now = true →
        user_login env = (.httpError 403 expiredDetail, false)) := by
  refine ⟨?_, ?_, ?_⟩
  · intro hfalse
    rcases va with _ | av
    · rfl
    · simp [expirationOutcome, hfalse]
  · intro av hva htrue hparse
    subst hva
    have hout : expirationOutcome (some av) env.now = some (.httpError 400 invalidExpirationDetail) := by
      simp [expirationOutcome, htrue, hparse]
    simp [user_login, h1, hv, hout]
  · intro av d hva htrue hparse hbefore
    subst hva
    have hout : expirationOutcome (some av) env.now = some (.httpError 403 expiredDetail) := by
      simp [expirationOutcome, htrue, hparse, hbefore]
    simp [user_login, h1, hv, hout]

/-- Witness for the amended C5: the spec's "bob" scenario — an
`account_expiration` of 2020-01-01 in the past fails with the Expired
outcome before any grant call. -/
theorem user_login_expiration_check_witness :
    user_login envC5w = (.httpError 403 expiredDetail, false) :=
  (user_login_expiration_check envC5w (some (.str "2020-01-01T00:00:00Z")) rfl rfl).2.2
    (.str "2020-01-01T00:00:00Z") ⟨2020, 1, 1, 0, 0, 0⟩ rfl (by decide) (by decide) (by decide)

/-- C6: with `C` the user's active-session count and `M` the realm's
configured max-sessions cap, `user_login` yields the concurrency-limit
outcome without attempting the grant when `M > 0` and `C ≥ M`, and
proceeds to the grant exchange regardless of `C` when `M = 0`
(unlimited). -/
theorem user_login_concurrency_cap (env : LoginEnv) (ss : List Unit) (m : Int)
    (h1 : is_user_temporarily_disabled env.eventsResponse = .ok false)
    (h2 : expirationOutcome (attrsGet env.user.attributes "account_expiration") env.now = none)
    (h3 : get_active_sessions env.sessionsResponse = .ok ss)
    (h4 : get_max_concurrent_sessions env.realmAttributes = .ok m) :
    (0 < m → m ≤ (ss.length : Int) →
        user_login env = (.httpError 403 concurrencyDetail, false))
  ∧ (m = 0 → (user_login env).2 = true) := by
  constructor
  · intro hpos hge
    simp [user_login, h1, h2, h3, h4, hpos, hge]
  · intro hm
    subst hm
    simp only [user_login, h1, h2, h3, h4]
    rw [if_neg (by simp)]
    split
    · rfl
    · split
      · rfl
      · split <;> rfl

/-- Witness for C6: a cap of 2 with 2 active sessions yields the
concurrency-limit outcome and no grant call. -/
theorem user_login_concurrency_cap_witness :
    user_login envC6 = (.httpError 403 concurrencyDetail, false) :=
  (user_login_concurrency_cap envC6 [(), ()] 2 rfl rfl rfl rfl).1 (by decide) (by decide)

/-- C7: `token_is_valid token audience` is true iff
`_decode_token token audience` succeeds (raises none of the three
failure kinds); with the default options `_decode_token` always
verifies the signature against the cached public key and that `exp` is
strictly in the future, and performs the audience check exactly when an
audience argument is supplied. -/
theorem token_verifier_contract (st : KState) (token : Token) (audience : Option String)
    (now : Int) :
    (token_is_valid st token audience now = true ↔
        ∃ c, _decode_token st token none audience now = Except.ok c)
  ∧ (∀ c, _decode_token st token none audience now = Except.ok c →
        token.signedWith = st.public_key ∧ now < token.exp ∧
          ∀ a, audience = some a → a ∈ token.aud)
  ∧ (decode_default_options audience).verify_signature = true
  ∧ (decode_default_options audience).verify_exp = true
  ∧ ((decode_default_options audience).verify_aud = true ↔ audience.isSome = true)
  ∧ (audience = none →
        (token_is_valid st token none now = true ↔
          token.wellFormed = true ∧ token.signedWith = st.public_key ∧ now < token.exp)) := by
  refine ⟨?_, ?_, rfl, rfl, Iff.rfl, ?_⟩
  · unfold token_is_valid
    rcases h : _decode_token st token none audience now with e | c
    · simp [h]
    · simp [h]
  · intro c h
    unfold _decode_token jwt_decode at h
    simp only [Option.getD_none, decode_default_options] at h
    split at h
    · simp at h
    · split at h
      · simp at h
      · split at h
        · simp at h
        · split at h
          · simp at h
          · rename_i hwf hsig hexp haud
            refine ⟨?_, ?_, ?_⟩
            · by_contra hne
              exact hsig ⟨trivial, hne⟩
            · by_contra hnlt
              exact hexp ⟨trivial, hnlt⟩
            · intro a ha
              subst ha
              simp only [Option.isSome_some, true_and] at haud
              have : audienceMatches (some a) token.aud = true := by
                rcases hb : audienceMatches (some a) token.aud with _ | _
                · exact absurd hb haud
                · rfl
              simpa [audienceMatches] using this
  · intro ha
    subst ha
    unfold token_is_valid _decode_token jwt_decode
    simp only [Option.getD_none, decode_default_options, Option.isSome_none]
    rcases hwf : token.wellFormed with _ | _
    · simp
    · by_cases h2 : token.signedWith = st.public_key
      · by_cases h3 : now < token.exp
        · simp [h2, h3]
        · simp [h2, h3]
      · simp [h2]

/-- Witness for C7: a well-formed token signed with the cached key and
unexpired at the verification time is valid. -/
theorem token_verifier_contract_witness :
    token_is_valid stEx tokEx none 0 = true :=
  (token_verifier_contract stEx tokEx none 0).1.mpr ⟨tokEx, rfl⟩

/-- C8 fails on the code: under an environment where the remote grant
keeps returning tokens that pass the setter's checks at acquisition
time but fail the subsequent validity check (here: each granted token
expires one second after it is granted, and the clock advances by one
second per iteration), the `admin_token` accessor re-acquires at every
recursion step and never returns or fails explicitly, for every
recursion depth — the recursion is unbounded, contradicting the
claim's cap of one re-acquisition per call chain. -/
theorem admin_token_unbounded_refresh :
    ∀ k fuel, admin_token_fuel ⟨"realm-public-key"⟩ c8_times c8_grants (c8_tok k) k fuel =
      .outOfFuel := by
  intro k fuel
  induction fuel generalizing k with
  | zero => rfl
  | succ n ih =>
    have hvalid : token_is_valid ⟨"realm-public-key"⟩ (c8_tok k) none (c8_times k) = false := by
      simp [token_is_valid, _decode_token, jwt_decode, decode_default_options,
        c8_tok, c8_times]
    have hexp : c8_times k < ((k + 1 : Nat) : Int) := by
      simp [c8_times]
    have hget : _get_admin_token ⟨"realm-public-key"⟩ (c8_times k) (c8_grants k) =
        .ok (c8_tok (k + 1)) := by
      simp [_get_admin_token, c8_grants, _decode_token, jwt_decode, decode_default_options,
        c8_tok, c8_times, hexp]
    rw [admin_token_fuel, if_neg (by simp [hvalid]), hget]
    exact ih (k + 1)

/-- The pair loop of `validate_query` succeeds exactly when every pair
has an allow-listed key and a non-empty value. -/
theorem validateQueryPairs_ok_iff (ps : List String) :
    validateQueryPairs ps = .ok () ↔
      ∀ p ∈ ps, (partitionEq p).1 ∈ ALLOWED_QUERY_FIELDS ∧ (partitionEq p).2 ≠ "" := by
  induction ps with
  | nil => simp [validateQueryPairs]
  | cons p rest ih =>
    by_cases h : (partitionEq p).1 ∈ ALLOWED_QUERY_FIELDS ∧ (partitionEq p).2 ≠ ""
    · simp [validateQueryPairs, h, ih]
    · simp [validateQueryPairs, h]

/-- C9: the user lookup by query performs the remote call exactly when
every `&`-separated `key=value` pair of the query has a key in the
allow-list {email, username, firstName, lastName} and a non-empty
value; otherwise it is rejected (a `ValueError` is raised) before any
network call. -/
theorem get_user_query_field_allowlist (query : String) :
    (get_user_by_query query = .remoteLookup query ↔
        ∀ p ∈ splitAmp query,
          (partitionEq p).1 ∈ ALLOWED_QUERY_FIELDS ∧ (partitionEq p).2 ≠ "")
  ∧ (∀ m, get_user_by_query query = .rejected m →
        ∃ p ∈ splitAmp query,
          (partitionEq p).1 ∉ ALLOWED_QUERY_FIELDS ∨ (partitionEq p).2 = "") := by
  constructor
  · unfold get_user_by_query validate_query
    rcases h : validateQueryPairs (splitAmp query) with m | u
    · refine iff_of_false (by simp) ?_
      intro hall
      rw [(validateQueryPairs_ok_iff (splitAmp query)).mpr hall] at h
      cases h
    · cases u
      exact iff_of_true rfl ((validateQueryPairs_ok_iff (splitAmp query)).mp h)
  · intro m hm
    by_contra hno
    push_neg at hno
    have hall : ∀ p ∈ splitAmp query,
        (partitionEq p).1 ∈ ALLOWED_QUERY_FIELDS ∧ (partitionEq p).2 ≠ "" := by
      intro p hp
      have := hno p hp
      exact ⟨this.1, this.2⟩
    have hok := (validateQueryPairs_ok_iff (splitAmp query)).mpr hall
    unfold get_user_by_query validate_query at hm
    rw [hok] at hm
    cases hm

/-- Witness for C9: a single allow-listed pair with a non-empty value
reaches the remote lookup. -/
theorem get_user_query_field_allowlist_witness :
    get_user_by_query "email=a" = .remoteLookup "email=a" :=
  (get_user_query_field_allowlist "email=a").1.mpr (by decide)

/-- C10: the `result_or_error` wrapper treats a `Response` as
successful exactly when its status code lies in 100..298 inclusive; any
status of 299 or greater raises a `KeycloakError` carrying that status
and the response body (JSON when parseable, else the decoded text),
while any 1xx informational status is processed as success — the body
is parsed or returned, never raised as a `KeycloakError`. -/
theorem result_or_error_status_ranges (hasModel isList : Bool) (result : PyResponse) :
    ((∃ reason, result_or_error_wrap hasModel isList result =
          .keycloakError result.status_code reason) ↔
        ¬ (100 ≤ result.status_code ∧ result.status_code ≤ 298))
  ∧ (299 ≤ result.status_code →
        result_or_error_wrap hasModel isList result =
          .keycloakError result.status_code
            (match result.jsonBody with
             | some j => .jsonReason j
             | none => .textReason result.text))
  ∧ (100 ≤ result.status_code → result.status_code ≤ 199 →
        ∀ s reason, result_or_error_wrap hasModel isList result ≠ .keycloakError s reason)
  ∧ (100 ≤ result.status_code → result.status_code ≤ 199 → hasModel = false →
        result_or_error_wrap hasModel isList result =
          (match result.jsonBody with
           | some j => .value j
           | none => .textValue result.text)) := by
  by_cases hs : 100 ≤ result.status_code ∧ result.status_code < 299
  · have hsucc : ∀ s reason,
        result_or_error_wrap hasModel isList result ≠ .keycloakError s reason := by
      intro s reason
      unfold result_or_error_wrap
      rw [if_pos hs]
      cases hM : hasModel
      · rcases result.jsonBody with _ | j <;> simp
      · rcases result.jsonBody with _ | j
        · simp
        · cases isList <;> simp
    refine ⟨?_, ?_, fun _ _ => hsucc, ?_⟩
    · refine iff_of_false ?_ ?_
      · rintro ⟨reason, hr⟩
        exact hsucc result.status_code reason hr
      · intro hnot
        exact hnot ⟨hs.1, by omega⟩
    · intro h299
      omega
    · intro _ _ hM
      unfold result_or_error_wrap
      rw [if_pos hs, if_pos hM]
  · have hfail : result_or_error_wrap hasModel isList result =
        .keycloakError result.status_code
          (match result.jsonBody with
           | some j => .jsonReason j
           | none => .textReason result.text) := by
      unfold result_or_error_wrap
      rw [if_neg hs]
      rcases result.jsonBody with _ | j <;> rfl
    refine ⟨?_, fun _ => hfail, ?_, ?_⟩
    · refine iff_of_true ⟨_, hfail⟩ ?_
      intro hin
      exact hs ⟨hin.1, by omega⟩
    · intro h100 h199
      exact absurd ⟨h100, by omega⟩ hs
    · intro h100 h199 _
      exact absurd ⟨h100, by omega⟩ hs

/-- Witness for C10: a 500 response with a non-JSON body raises the
`KeycloakError` with the status and the decoded text. -/
theorem result_or_error_status_ranges_witness :
    result_or_error_wrap false false pyRespEx = .keycloakError 500 (.textReason "oops") :=
  (result_or_error_status_ranges false false pyRespEx).2.1 (by decide)

end FastapiKeycloak
